import Mathlib

/-!
Shallow embedding of the AIMovie application (src/main.py).

The SQLite database is modelled as in-memory lists: the `users` table as an
association list `username -> password_hash` and the `watchlist` table as a
list of rows in insertion (rowid) order.  External collaborators are
abstracted as oracle functions passed explicitly:
  * `hash`  models `hash_password` (SHA-256 hexdigest of the password) — an
    unspecified deterministic function `String -> String`;
  * `llm`   models the Bedrock model invocation inside `ask_claude`, mapping
    a prompt to the raw reply text (before the final `.strip()`);
  * `serp`  models the SerpAPI call, mapping a query to the list of organic
    result snippets;
  * `tmdbL` models the TMDB search-plus-details composite in
    `get_movie_info`, mapping a title to an optional metadata record.
Python `str.split(sep)` and `str.strip()` are modelled structurally on the
character list underlying the string.  Functions that call the language
model also return the list of prompts they issued, so that claims about the
number of model calls are expressible.
-/

/-- A row of the `watchlist` table.  `added_on` models the
`TIMESTAMP DEFAULT CURRENT_TIMESTAMP` column, supplied by the insert. -/
structure WatchRow where
  username : String
  title : String
  rating : String
  summary : String
  available_on : String
  added_on : Nat
deriving Repr, DecidableEq

/-- The persistent SQLite database: `users` rows are
(username, password_hash) pairs; `watchlist` rows in rowid order. -/
structure DB where
  users : List (String × String)
  watchlist : List WatchRow
deriving Repr, DecidableEq

/-- Python `list.split(sep)` on the underlying characters for a single
character separator: splits at every occurrence, keeps empty pieces, and
yields `[[]]` on the empty string. -/
def splitOnChar (sep : Char) : List Char → List (List Char)
  | [] => [[]]
  | c :: cs =>
    if c = sep then [] :: splitOnChar sep cs
    else
      match splitOnChar sep cs with
      | [] => [[c]]
      | h :: t => (c :: h) :: t

/-- Python `str.strip()` on the underlying characters: drop whitespace from
both ends. -/
def stripChars (l : List Char) : List Char :=
  ((l.dropWhile Char.isWhitespace).reverse.dropWhile Char.isWhitespace).reverse

/-- Python `str.strip()`. -/
def pyStrip (s : String) : String :=
  ⟨stripChars s.data⟩

/-- The idiom `[t.strip() for t in reply.split(sep)]` used by every
recommendation parser in src/main.py, with the comma separator. -/
def pySplitStrip (s : String) : List String :=
  (splitOnChar ',' s.data).map (fun l => ⟨stripChars l⟩)

/-- Truthiness of the value returned by `login_user` under a Python `if`:
`None` and `False` are falsy, `True` is truthy. -/
def pyTruthy (r : Option Bool) : Bool :=
  r.getD false

/-- `signup_user` (src/main.py lines 46-54): INSERT into `users` whose
primary key is `username`; the caught `sqlite3.IntegrityError` on a
duplicate key becomes the `false` return, leaving the table unchanged. -/
def signup_user (hash : String → String) (db : DB) (username password : String) :
    DB × Bool :=
  if db.users.any (fun r => r.1 == username) then (db, false)
  else ({ db with users := db.users ++ [(username, hash password)] }, true)

/-- `login_user` (src/main.py lines 56-59): `result and result[0] ==
hash_password(password)` returns Python `None` when no row matches
(modelled `none`) and otherwise the boolean digest comparison
(modelled `some b`). -/
def login_user (hash : String → String) (db : DB) (username password : String) :
    Option Bool :=
  match db.users.find? (fun r => r.1 == username) with
  | none => none
  | some r => some (r.2 == hash password)

/-- The WHERE clause `username = ? AND title = ?` used by the watchlist
queries. -/
def keyP (username title : String) (r : WatchRow) : Bool :=
  r.username == username && r.title == title

/-- `is_in_watchlist` (src/main.py lines 154-157): membership check on the
(username, title) key. -/
def is_in_watchlist (db : DB) (username title : String) : Bool :=
  db.watchlist.any (keyP username title)

/-- Outcome of the Add to Watchlist handler: a successful INSERT, or the
caught `sqlite3.IntegrityError` from the (username, title) primary key,
surfaced as the "Already in your watchlist." warning. -/
inductive AddResult where
  | added
  | alreadyExists
deriving Repr, DecidableEq

/-- The Add to Watchlist handler (src/main.py lines 225-241): INSERT of
(username, title, rating, summary, available_on) with the primary-key
uniqueness check on (username, title); `now` supplies the
`CURRENT_TIMESTAMP` default for `added_on`. -/
def add_to_watchlist (db : DB) (username title rating summary available_on : String)
    (now : Nat) : DB × AddResult :=
  if db.watchlist.any (keyP username title) then (db, AddResult.alreadyExists)
  else
    ({ db with
        watchlist := db.watchlist ++
          [⟨username, title, rating, summary, available_on, now⟩] },
      AddResult.added)

/-- The Remove button handler (src/main.py lines 257-262): DELETE FROM
watchlist WHERE username = ? AND title = ?. -/
def remove_from_watchlist (db : DB) (username title : String) : DB :=
  { db with watchlist := db.watchlist.filter (fun r => !(keyP username title r)) }

/-- The Clear Watchlist handler (src/main.py lines 264-269): DELETE FROM
watchlist WHERE username = ?. -/
def clear_watchlist (db : DB) (username : String) : DB :=
  { db with watchlist := db.watchlist.filter (fun r => !(r.username == username)) }

/-- SELECT title FROM watchlist WHERE username = ? (src/main.py line 125),
in storage order. -/
def watchlist_titles (db : DB) (username : String) : List String :=
  (db.watchlist.filter (fun r => r.username == username)).map (fun r => r.title)

/-- `ask_claude` (src/main.py lines 93-105): one model invocation at
temperature 0 with max_tokens 300, returning the reply text stripped.  The
second component records the prompts issued (exactly one here). -/
def ask_claude (llm : String → String) (prompt : String) : String × List String :=
  (pyStrip (llm prompt), [prompt])

/-- The prompt built by `ask_claude_for_streaming_info`
(src/main.py lines 107-113). -/
def streaming_prompt (snippets title : String) : String :=
  "Based on these web search snippets, where can I stream or watch the movie or tv show \x27" ++
    title ++ "\x27?\n\n" ++ snippets ++
    "\n\nList only the streaming platforms or services. If unknown, say \x27Not found\x27."

/-- `ask_claude_for_streaming_info` (src/main.py lines 107-113). -/
def ask_claude_for_streaming_info (llm : String → String) (snippets title : String) :
    String × List String :=
  ask_claude llm (streaming_prompt snippets title)

/-- `ask_claude_for_genre_recs` (src/main.py lines 115-121): fixed template
around the genre prompt, reply split on commas and entries stripped. -/
def ask_claude_for_genre_recs (llm : String → String) (genre_prompt : String) :
    List String × List String :=
  let prompt :=
    "List 5 great movies in the genre or theme: \x27" ++ genre_prompt ++
      "\x27. Return only the movie titles, comma-separated."
  let r := ask_claude llm prompt
  (pySplitStrip r.1, r.2)

/-- `get_claude_personal_recommendations` (src/main.py lines 123-136):
reads the titles saved by `username`; on an empty watchlist returns `[]`
without any model call (Python `if not titles: return []`); otherwise joins
the titles with ", " into the fixed template and splits/strips the reply. -/
def get_claude_personal_recommendations (llm : String → String) (db : DB)
    (username : String) : List String × List String :=
  let titles := watchlist_titles db username
  if titles.isEmpty then ([], [])
  else
    let prompt :=
      "The user has saved these movies to their watchlist: " ++
        String.intercalate ", " titles ++
        ". Based on their taste, recommend 5 more movies. Return only the movie titles, comma-separated."
    let r := ask_claude llm prompt
    (pySplitStrip r.1, r.2)

/-- `search_snippets_from_serpapi` (src/main.py lines 139-147): joins the
organic-result snippets with a newline; the Python `or` falls back to the
literal string when the join is empty. -/
def search_snippets_from_serpapi (serp : String → List String) (query : String) :
    String :=
  let joined := String.intercalate "\n" (serp query)
  if joined == "" then "No useful search results found." else joined

/-- `get_streaming_info` (src/main.py lines 149-151): web search for the
watch query, model summarisation, reply split on commas with each entry
stripped.  The second component records the model prompts issued. -/
def get_streaming_info (serp : String → List String) (llm : String → String)
    (title : String) : List String × List String :=
  let snippets := search_snippets_from_serpapi serp ("Where can I watch " ++ title ++ " streaming")
  let r := ask_claude_for_streaming_info llm snippets title
  (pySplitStrip r.1, r.2)

example : pySplitStrip "Not found" = ["Not found"] := by decide

example : pySplitStrip "A, B ,C" = ["A", "B", "C"] := by decide

example : pySplitStrip "" = [""] := by decide

/-- The enriched record built by `get_movie_info` (src/main.py lines
159-177) and held in `st.session_state["movie_info"]`.  `rating` keeps the
string rendering of TMDB `vote_average` (or "N/A"). -/
structure MovieInfo where
  title : String
  summary : String
  rating : String
  poster_url : Option String
  genres : List String
  similar_titles : List String
  available_on : List String
deriving Repr, DecidableEq

/-- `get_movie_info` (src/main.py lines 159-177): the TMDB search-plus-
details composite is the oracle `tmdbL`; on a match the `available_on`
field is replaced by the result of `get_streaming_info`. -/
def get_movie_info (tmdbL : String → Option MovieInfo)
    (serp : String → List String) (llm : String → String) (title : String) :
    Option MovieInfo :=
  match tmdbL title with
  | none => none
  | some m => some { m with available_on := (get_streaming_info serp llm title).1 }

/-- The Streamlit session state (src/main.py lines 62-65 and the handlers):
`movie_info`, `claude_recs` and `personal_recs` are `none` when the key is
absent from `st.session_state` (after `pop`) and `some v` when present;
`movie_info` can be present while holding Python `None`
(`some none`, a failed title search). -/
structure SessionState where
  authenticated : Bool
  current_user : String
  movie_info : Option (Option MovieInfo)
  claude_recs : Option (List String)
  personal_recs : Option (List String)
deriving Repr, DecidableEq

/-- Session state of a fresh connection: unauthenticated, no result keys
present (src/main.py lines 62-65). -/
def initSession : SessionState :=
  ⟨false, "", none, none, none⟩

/-- Whole application state: the persistent database plus the per-session
Streamlit state. -/
structure AppState where
  db : DB
  session : SessionState
deriving Repr, DecidableEq

/-- The external collaborators of one Streamlit rerun. -/
structure Env where
  hash : String → String
  tmdbL : String → Option MovieInfo
  serp : String → List String
  llm : String → String

/-- One user interaction: the button clicked together with the text-input
contents it consumes. -/
inductive UIAction where
  | searchTitle (input : String)
  | genreRecs (input : String)
  | addCurrent (now : Nat)
  | removeEntry (title : String)
  | clearList
  | getPersonal
  | loginA (username password : String)
  | signupA (username password : String)
  | logout
deriving Repr

/-- One Streamlit rerun handling one user interaction (src/main.py lines
68-90 and 180-291).  The login screen (and `st.stop()`) gates the main
handlers behind `authenticated`; the Add button is only rendered when
`movie_info` holds a record; each populating handler pops the other two
result keys. -/
def step (env : Env) (s : AppState) : UIAction → AppState
  | UIAction.searchTitle input =>
    if !s.session.authenticated then s
    else if input == "" then s
    else
      { s with
        session :=
          { s.session with
            movie_info := some (get_movie_info env.tmdbL env.serp env.llm input),
            claude_recs := none,
            personal_recs := none } }
  | UIAction.genreRecs input =>
    if !s.session.authenticated then s
    else if input == "" then s
    else
      { s with
        session :=
          { s.session with
            claude_recs := some (ask_claude_for_genre_recs env.llm input).1,
            movie_info := none,
            personal_recs := none } }
  | UIAction.addCurrent now =>
    if !s.session.authenticated then s
    else
      match s.session.movie_info with
      | some (some info) =>
        { s with
          db :=
            (add_to_watchlist s.db s.session.current_user info.title info.rating
              info.summary (String.intercalate ", " info.available_on) now).1 }
      | _ => s
  | UIAction.removeEntry title =>
    if !s.session.authenticated then s
    else { s with db := remove_from_watchlist s.db s.session.current_user title }
  | UIAction.clearList =>
    if !s.session.authenticated then s
    else { s with db := clear_watchlist s.db s.session.current_user }
  | UIAction.getPersonal =>
    if !s.session.authenticated then s
    else
      { s with
        session :=
          { s.session with
            personal_recs :=
              some (get_claude_personal_recommendations env.llm s.db
                s.session.current_user).1,
            movie_info := none,
            claude_recs := none } }
  | UIAction.loginA username password =>
    if s.session.authenticated then s
    else if login_user env.hash s.db username password = some true then
      { s with
        session := { s.session with authenticated := true, current_user := username } }
    else s
  | UIAction.signupA username password =>
    if s.session.authenticated then s
    else { s with db := (signup_user env.hash s.db username password).1 }
  | UIAction.logout =>
    if !s.session.authenticated then s
    else
      { s with
        session :=
          { s.session with
            authenticated := false,
            current_user := "",
            movie_info := none,
            claude_recs := none,
            personal_recs := none } }

/-- How many of the three result keys are present in the session. -/
def keysLive (s : SessionState) : Nat :=
  (if s.movie_info.isSome then 1 else 0) +
    (if s.claude_recs.isSome then 1 else 0) +
    (if s.personal_recs.isSome then 1 else 0)

/-- Application states reachable from a fresh session over any database
contents by any sequence of user interactions. -/
inductive Reachable : AppState → Prop where
  | init (db : DB) : Reachable ⟨db, initSession⟩
  | next (s : AppState) (env : Env) (a : UIAction) :
      Reachable s → Reachable (step env s a)

/-! ### Helper lemmas -/

theorem splitOnChar_ne_nil (sep : Char) (l : List Char) : splitOnChar sep l ≠ [] := by
  induction l with
  | nil => simp [splitOnChar]
  | cons c cs ih =>
    simp only [splitOnChar]
    split
    · simp
    · split
      · simp
      · simp

theorem pySplitStrip_ne_nil (s : String) : pySplitStrip s ≠ [] := by
  simp only [pySplitStrip, ne_eq, List.map_eq_nil_iff]
  exact splitOnChar_ne_nil ',' s.data

theorem find?_append_of_none {α : Type} (p : α → Bool) (l1 l2 : List α)
    (h : ∀ x ∈ l1, p x = false) :
    List.find? p (l1 ++ l2) = List.find? p l2 := by
  induction l1 with
  | nil => simp
  | cons a l ih =>
    have ha : p a = false := h a (List.mem_cons_self a l)
    simp only [List.cons_append, List.find?_cons, ha]
    exact ih (fun x hx => h x (List.mem_cons_of_mem a hx))

/-! ### Claim theorems -/

/-- C5: for every username whose watchlist is empty,
`get_claude_personal_recommendations` returns an empty sequence and issues
no language-model call. -/
theorem recommend_by_history_empty (llm : String → String) (db : DB) (u : String)
    (h : watchlist_titles db u = []) :
    get_claude_personal_recommendations llm db u = ([], []) := by
  simp [get_claude_personal_recommendations, h]

/-- Witness for C5 at a database with one row owned by another user. -/
theorem recommend_by_history_empty_witness :
    watchlist_titles ⟨[], [⟨"bob", "Dune", "8", "s", "Netflix", 0⟩]⟩ "alice" = [] ∧
      get_claude_personal_recommendations (fun _ => "A, B")
        ⟨[], [⟨"bob", "Dune", "8", "s", "Netflix", 0⟩]⟩ "alice" = ([], []) := by
  have h : watchlist_titles ⟨[], [⟨"bob", "Dune", "8", "s", "Netflix", 0⟩]⟩ "alice" = [] := by
    decide
  exact ⟨h, recommend_by_history_empty (fun _ => "A, B") _ "alice" h⟩

/-- C10: the comma-split-and-trim parser always yields at least one entry,
so `ask_claude_for_genre_recs`, `get_streaming_info` and, on a non-empty
watchlist, `get_claude_personal_recommendations` never return an empty
sequence. -/
theorem comma_split_nonempty :
    (∀ s : String, pySplitStrip s ≠ []) ∧
      (∀ (llm : String → String) (g : String), (ask_claude_for_genre_recs llm g).1 ≠ []) ∧
      (∀ (serp : String → List String) (llm : String → String) (t : String),
        (get_streaming_info serp llm t).1 ≠ []) ∧
      (∀ (llm : String → String) (db : DB) (u : String), watchlist_titles db u ≠ [] →
        (get_claude_personal_recommendations llm db u).1 ≠ []) := by
  refine ⟨pySplitStrip_ne_nil, fun llm g => ?_, fun serp llm t => ?_, fun llm db u h => ?_⟩
  · simp only [ask_claude_for_genre_recs]
    exact pySplitStrip_ne_nil _
  · simp only [get_streaming_info]
    exact pySplitStrip_ne_nil _
  · simp only [get_claude_personal_recommendations, List.isEmpty_iff]
    rw [if_neg h]
    exact pySplitStrip_ne_nil _

/-- Witness for C10 discharging the non-empty-watchlist hypothesis at a
concrete one-row database. -/
theorem comma_split_nonempty_witness :
    watchlist_titles ⟨[], [⟨"alice", "Dune", "8", "s", "Netflix", 0⟩]⟩ "alice" ≠ [] ∧
      (get_claude_personal_recommendations (fun _ => "A, B")
        ⟨[], [⟨"alice", "Dune", "8", "s", "Netflix", 0⟩]⟩ "alice").1 ≠ [] := by
  have h : watchlist_titles ⟨[], [⟨"alice", "Dune", "8", "s", "Netflix", 0⟩]⟩ "alice" ≠ [] := by
    decide
  exact ⟨h, comma_split_nonempty.2.2.2 (fun _ => "A, B") _ "alice" h⟩

/-- C2: registering a fresh username succeeds, authenticating with the same
password then returns Python `True`, and authenticating with any password
of a different digest returns Python `False`. -/
theorem register_then_authenticate (hash : String → String) (db : DB) (u p w : String)
    (hu : db.users.any (fun r => r.1 == u) = false)
    (hw : hash w ≠ hash p) :
    (signup_user hash db u p).2 = true ∧
      login_user hash (signup_user hash db u p).1 u p = some true ∧
      login_user hash (signup_user hash db u p).1 u w = some false := by
  have hall : ∀ x ∈ db.users, (x.1 == u) = false := by
    intro x hx
    have := List.any_eq_false.mp hu x hx
    simpa using this
  have hdb : (signup_user hash db u p).1 = { db with users := db.users ++ [(u, hash p)] } := by
    simp [signup_user, hu]
  have hfind :
      ((signup_user hash db u p).1).users.find? (fun r => r.1 == u) =
        some (u, hash p) := by
    rw [hdb]
    show List.find? (fun r => r.1 == u) (db.users ++ [(u, hash p)]) = some (u, hash p)
    rw [find?_append_of_none _ _ _ hall]
    simp
  refine ⟨by simp [signup_user, hu], ?_, ?_⟩
  · simp [login_user, hfind]
  · simp [login_user, hfind]
    exact fun h => absurd h.symm hw

/-- Witness for C2 at a concrete store with one other user. -/
theorem register_then_authenticate_witness :
    (DB.users ⟨[("bob", "x")], []⟩).any (fun r => r.1 == "alice") = false ∧
      (fun s : String => s) "wrong" ≠ (fun s : String => s) "pw1" ∧
      (signup_user (fun s => s) ⟨[("bob", "x")], []⟩ "alice" "pw1").2 = true ∧
      login_user (fun s => s)
        (signup_user (fun s => s) ⟨[("bob", "x")], []⟩ "alice" "pw1").1 "alice" "pw1" =
        some true ∧
      login_user (fun s => s)
        (signup_user (fun s => s) ⟨[("bob", "x")], []⟩ "alice" "pw1").1 "alice" "wrong" =
        some false := by
  have hu : (DB.users ⟨[("bob", "x")], []⟩).any (fun r => r.1 == "alice") = false := by decide
  have hw : (fun s : String => s) "wrong" ≠ (fun s : String => s) "pw1" := by decide
  have := register_then_authenticate (fun s => s) ⟨[("bob", "x")], []⟩ "alice" "pw1" "wrong" hu hw
  exact ⟨hu, hw, this.1, this.2.1, this.2.2⟩

/-- C9: registering the same username twice returns `true` the first time
and `false` the second, with the uniqueness violation absorbed into the
boolean rather than an exception. -/
theorem register_twice (hash : String → String) (db : DB) (u p1 p2 : String)
    (hu : db.users.any (fun r => r.1 == u) = false) :
    (signup_user hash db u p1).2 = true ∧
      (signup_user hash (signup_user hash db u p1).1 u p2).2 = false := by
  constructor
  · simp [signup_user, hu]
  · simp [signup_user, hu]

/-- Witness for C9 at the empty store. -/
theorem register_twice_witness :
    (DB.users ⟨[], []⟩).any (fun r => r.1 == "alice") = false ∧
      (signup_user (fun s => s) ⟨[], []⟩ "alice" "pw1").2 = true ∧
      (signup_user (fun s => s)
        (signup_user (fun s => s) ⟨[], []⟩ "alice" "pw1").1 "alice" "pw2").2 = false := by
  have hu : (DB.users ⟨[], []⟩).any (fun r => r.1 == "alice") = false := by decide
  have := register_twice (fun s => s) ⟨[], []⟩ "alice" "pw1" "pw2" hu
  exact ⟨hu, this.1, this.2⟩

/-- C6: after a successful add the entry exists; after a remove it does
not; removing an absent entry is a no-op on the database. -/
theorem watchlist_add_remove_exists (db : DB) (u t rt sm av : String) (now : Nat) :
    ((add_to_watchlist db u t rt sm av now).2 = AddResult.added →
      is_in_watchlist (add_to_watchlist db u t rt sm av now).1 u t = true) ∧
      is_in_watchlist (remove_from_watchlist db u t) u t = false ∧
      (is_in_watchlist db u t = false → remove_from_watchlist db u t = db) := by
  refine ⟨?_, ?_, ?_⟩
  · intro hadded
    by_cases h : db.watchlist.any (keyP u t) = true
    · simp [add_to_watchlist, h] at hadded
    · have h' : db.watchlist.any (keyP u t) = false := by
        simpa using h
      simp [add_to_watchlist, h', is_in_watchlist, keyP]
  · simp only [is_in_watchlist, remove_from_watchlist]
    rw [List.any_eq_false]
    intro x hx
    have h2 : (!(keyP u t x)) = true := (List.mem_filter.mp hx).2
    simp only [Bool.not_eq_true'] at h2
    simp [h2]
  · intro h
    have hall : ∀ a ∈ db.watchlist, (!(keyP u t a)) = true := by
      intro a ha
      have := List.any_eq_false.mp h a ha
      simpa using this
    simp only [remove_from_watchlist]
    rw [List.filter_eq_self.mpr hall]

/-- Witness for C6 at a one-row database, discharging the added-result and
absent-entry hypotheses. -/
theorem watchlist_add_remove_exists_witness :
    (add_to_watchlist ⟨[], []⟩ "alice" "Dune" "8" "s" "Netflix" 0).2 = AddResult.added ∧
      is_in_watchlist (add_to_watchlist ⟨[], []⟩ "alice" "Dune" "8" "s" "Netflix" 0).1
        "alice" "Dune" = true ∧
      is_in_watchlist ⟨[], []⟩ "alice" "Dune" = false ∧
      remove_from_watchlist ⟨[], []⟩ "alice" "Dune" = ⟨[], []⟩ := by
  have h1 : (add_to_watchlist ⟨[], []⟩ "alice" "Dune" "8" "s" "Netflix" 0).2 =
      AddResult.added := by decide
  have h2 : is_in_watchlist ⟨[], []⟩ "alice" "Dune" = false := by decide
  have hthm := watchlist_add_remove_exists ⟨[], []⟩ "alice" "Dune" "8" "s" "Netflix" 0
  exact ⟨h1, hthm.1 h1, h2, hthm.2.2 h2⟩

/-- C7: clearing a watchlist deletes every row of that user and leaves
every other user's rows untouched. -/
theorem clear_watchlist_isolation (db : DB) (u : String) :
    (clear_watchlist db u).watchlist.filter (fun r => r.username == u) = [] ∧
      ∀ v : String, v ≠ u →
        (clear_watchlist db u).watchlist.filter (fun r => r.username == v) =
          db.watchlist.filter (fun r => r.username == v) := by
  constructor
  · simp only [clear_watchlist]
    rw [List.filter_eq_nil_iff]
    intro a ha
    have h2 : (!(a.username == u)) = true := (List.mem_filter.mp ha).2
    simp only [Bool.not_eq_true'] at h2
    simp [h2]
  · intro v hv
    show (db.watchlist.filter (fun r => !(r.username == u))).filter
        (fun r => r.username == v) = db.watchlist.filter (fun r => r.username == v)
    induction db.watchlist with
    | nil => rfl
    | cons a l ih =>
      by_cases h2 : a.username = v
      · have h1 : (!(a.username == u)) = true := by
          have : a.username ≠ u := by
            rw [h2]
            exact hv
          simp [this]
        simp only [List.filter_cons, h1, if_true]
        have h2' : (a.username == v) = true := by simp [h2]
        simp only [List.filter_cons, h2', if_true, ih]
      · have h2' : (a.username == v) = false := by simp [h2]
        by_cases h1 : a.username = u
        · have h1' : (!(a.username == u)) = false := by simp [h1]
          simp only [List.filter_cons, h1', Bool.false_eq_true, if_false, ih, h2']
        · have h1' : (!(a.username == u)) = true := by simp [h1]
          simp only [List.filter_cons, h1', if_true, h2', Bool.false_eq_true, if_false, ih]

/-- Witness for C7 discharging the distinct-username hypothesis. -/
theorem clear_watchlist_isolation_witness :
    ("bob" : String) ≠ "alice" ∧
      (clear_watchlist ⟨[], [⟨"alice", "Dune", "8", "s", "N", 0⟩,
          ⟨"bob", "Up", "7", "s2", "M", 1⟩]⟩ "alice").watchlist.filter
        (fun r => r.username == "bob") =
        (DB.watchlist ⟨[], [⟨"alice", "Dune", "8", "s", "N", 0⟩,
          ⟨"bob", "Up", "7", "s2", "M", 1⟩]⟩).filter (fun r => r.username == "bob") := by
  have hv : ("bob" : String) ≠ "alice" := by decide
  exact ⟨hv,
    (clear_watchlist_isolation
      ⟨[], [⟨"alice", "Dune", "8", "s", "N", 0⟩, ⟨"bob", "Up", "7", "s2", "M", 1⟩]⟩
      "alice").2 "bob" hv⟩

/-- The (username, title) primary-key invariant of the watchlist table: no
two rows share the key.  SQLite enforces it; every embedded operation
preserves it. -/
def WatchlistWF (db : DB) : Prop :=
  db.watchlist.Pairwise (fun a b => ¬(a.username = b.username ∧ a.title = b.title))

theorem keyP_iff (u t : String) (r : WatchRow) :
    keyP u t r = true ↔ r.username = u ∧ r.title = t := by
  simp [keyP]

theorem filter_key_singleton (l : List WatchRow) (u t : String)
    (hwf : l.Pairwise (fun a b => ¬(a.username = b.username ∧ a.title = b.title)))
    (hex : l.any (keyP u t) = true) :
    ∃ r0, l.filter (keyP u t) = [r0] ∧ r0 ∈ l := by
  induction l with
  | nil => simp at hex
  | cons a l ih =>
    have hpw := List.pairwise_cons.mp hwf
    by_cases h : keyP u t a = true
    · refine ⟨a, ?_, List.mem_cons_self a l⟩
      rw [List.filter_cons_of_pos h]
      have hnil : l.filter (keyP u t) = [] := by
        rw [List.filter_eq_nil_iff]
        intro b hb hkb
        have hka := (keyP_iff u t a).mp h
        have hkb' := (keyP_iff u t b).mp hkb
        exact hpw.1 b hb ⟨hka.1.trans hkb'.1.symm, hka.2.trans hkb'.2.symm⟩
      rw [hnil]
    · have hex' : l.any (keyP u t) = true := by
        rcases List.any_eq_true.mp hex with ⟨x, hx, hpx⟩
        rcases List.mem_cons.mp hx with he | hx'
        · exact absurd (he ▸ hpx) h
        · exact List.any_eq_true.mpr ⟨x, hx', hpx⟩
      rcases ih hpw.2 hex' with ⟨r0, hf, hm⟩
      refine ⟨r0, ?_, List.mem_cons_of_mem a hm⟩
      rw [List.filter_cons_of_neg (by simpa using h)]
      exact hf

/-- C1: adding a record whose (username, title) key already exists signals
`AddResult.alreadyExists` (the caught uniqueness violation surfaced as a
warning, not an exception), leaves the database unchanged, and afterwards
exactly one row — the pre-existing one — matches the key. -/
theorem watchlist_add_duplicate (db : DB) (u t rt sm av : String) (now : Nat)
    (hwf : WatchlistWF db)
    (hex : is_in_watchlist db u t = true) :
    (add_to_watchlist db u t rt sm av now).2 = AddResult.alreadyExists ∧
      (add_to_watchlist db u t rt sm av now).1 = db ∧
      ∃ r0, (add_to_watchlist db u t rt sm av now).1.watchlist.filter (keyP u t) = [r0] ∧
        r0 ∈ db.watchlist := by
  have hex' : db.watchlist.any (keyP u t) = true := hex
  have hadd : add_to_watchlist db u t rt sm av now = (db, AddResult.alreadyExists) := by
    simp [add_to_watchlist, hex']
  refine ⟨by rw [hadd], by rw [hadd], ?_⟩
  rw [hadd]
  exact filter_key_singleton db.watchlist u t hwf hex'

/-- Witness for C1 at a database whose single row already carries the key
(alice, Dune). -/
theorem watchlist_add_duplicate_witness :
    WatchlistWF ⟨[], [⟨"alice", "Dune", "8", "s", "Netflix", 0⟩]⟩ ∧
      is_in_watchlist ⟨[], [⟨"alice", "Dune", "8", "s", "Netflix", 0⟩]⟩ "alice" "Dune" = true ∧
      (add_to_watchlist ⟨[], [⟨"alice", "Dune", "8", "s", "Netflix", 0⟩]⟩
          "alice" "Dune" "9" "s2" "Hulu" 5).2 = AddResult.alreadyExists ∧
      (add_to_watchlist ⟨[], [⟨"alice", "Dune", "8", "s", "Netflix", 0⟩]⟩
          "alice" "Dune" "9" "s2" "Hulu" 5).1 =
        ⟨[], [⟨"alice", "Dune", "8", "s", "Netflix", 0⟩]⟩ := by
  have hwf : WatchlistWF ⟨[], [⟨"alice", "Dune", "8", "s", "Netflix", 0⟩]⟩ := by
    simp [WatchlistWF]
  have hex : is_in_watchlist ⟨[], [⟨"alice", "Dune", "8", "s", "Netflix", 0⟩]⟩
      "alice" "Dune" = true := by decide
  have hthm := watchlist_add_duplicate ⟨[], [⟨"alice", "Dune", "8", "s", "Netflix", 0⟩]⟩
    "alice" "Dune" "9" "s2" "Hulu" 5 hwf hex
  exact ⟨hwf, hex, hthm.1, hthm.2.1⟩

/-- C3: with zero search snippets, `get_streaming_info` issues exactly one
model call, whose prompt embeds the literal fallback string, and returns
the comma-split, entry-trimmed reply; a verbatim reply "Not found" yields
["Not found"]. -/
theorem resolve_availability_fallback (serp : String → List String)
    (llm : String → String) (title : String)
    (h : serp ("Where can I watch " ++ title ++ " streaming") = []) :
    (get_streaming_info serp llm title).2 =
        [streaming_prompt "No useful search results found." title] ∧
      (∃ pre post : String,
        streaming_prompt "No useful search results found." title =
          pre ++ "No useful search results found." ++ post) ∧
      (get_streaming_info serp llm title).1 =
        pySplitStrip (pyStrip (llm (streaming_prompt "No useful search results found." title))) ∧
      (llm (streaming_prompt "No useful search results found." title) = "Not found" →
        (get_streaming_info serp llm title).1 = ["Not found"]) := by
  have hsn : search_snippets_from_serpapi serp
      ("Where can I watch " ++ title ++ " streaming") =
      "No useful search results found." := by
    have hnil : ("\n".intercalate ([] : List String)) = "" := rfl
    simp [search_snippets_from_serpapi, h, hnil]
  refine ⟨?_, ?_, ?_, ?_⟩
  · simp [get_streaming_info, hsn, ask_claude_for_streaming_info, ask_claude]
  · refine ⟨"Based on these web search snippets, where can I stream or watch the movie or tv show \x27" ++
      title ++ "\x27?\n\n", "\n\nList only the streaming platforms or services. If unknown, say \x27Not found\x27.", ?_⟩
    simp only [streaming_prompt, String.append_assoc]
  · simp [get_streaming_info, hsn, ask_claude_for_streaming_info, ask_claude]
  · intro hrep
    simp only [get_streaming_info, hsn, ask_claude_for_streaming_info, ask_claude, hrep]
    decide

/-- Witness for C3 with an empty search-result oracle and a model that
replies "Not found" verbatim. -/
theorem resolve_availability_fallback_witness :
    (fun _ : String => ([] : List String)) ("Where can I watch " ++ "Dune" ++ " streaming") = [] ∧
      (get_streaming_info (fun _ => []) (fun _ => "Not found") "Dune").2 =
        [streaming_prompt "No useful search results found." "Dune"] ∧
      (get_streaming_info (fun _ => []) (fun _ => "Not found") "Dune").1 = ["Not found"] := by
  have h : (fun _ : String => ([] : List String))
      ("Where can I watch " ++ "Dune" ++ " streaming") = [] := rfl
  have hthm := resolve_availability_fallback (fun _ => []) (fun _ => "Not found") "Dune" h
  exact ⟨h, hthm.1, hthm.2.2.2 rfl⟩

/-- C4: in every reachable application state at most one of the three
session result keys (movie_info, claude_recs, personal_recs) is present:
each populating handler pops the other two. -/
theorem session_single_live_view (s : AppState) (h : Reachable s) :
    keysLive s.session ≤ 1 := by
  induction h with
  | init db => simp [keysLive, initSession]
  | next s env a hs ih =>
    cases a <;> simp only [step] <;> (repeat' split) <;> simp_all [keysLive]

/-- A concrete environment for the C4 witness: empty search results, model
replying "Not found", no metadata matches. -/
def env0 : Env :=
  ⟨fun s => s, fun _ => none, fun _ => [], fun _ => "Not found"⟩

/-- Witness for C4: the state after one search interaction from a fresh
session is reachable and satisfies the invariant. -/
theorem session_single_live_view_witness :
    keysLive (step env0 ⟨⟨[], []⟩, initSession⟩ (UIAction.searchTitle "Dune")).session ≤ 1 :=
  session_single_live_view _
    (Reachable.next ⟨⟨[], []⟩, initSession⟩ env0 (UIAction.searchTitle "Dune")
      (Reachable.init ⟨[], []⟩))

/-- A concrete credential store for the C8 analysis: one user "alice" whose
stored digest (under the identity digest oracle) is "pw". -/
def dbC : DB :=
  ⟨[("alice", "pw")], []⟩

/-- C8 counterexample: `login_user` returns Python `None` (not `False`)
when the username is absent, while a wrong password for an existing user
returns `False`; the two raw return values are distinguishable. -/
theorem authenticate_counterexample :
    login_user (fun s => s) dbC "bob" "pw" = none ∧
      login_user (fun s => s) dbC "alice" "zz" = some false ∧
      login_user (fun s => s) dbC "bob" "pw" ≠ login_user (fun s => s) dbC "alice" "zz" := by
  decide

/-- C8 amended: `login_user` yields a falsy value in both failure cases —
`None` when no record exists and `False` when the stored digest differs —
so the caller's boolean test cannot distinguish them, although the raw
return values differ. -/
theorem authenticate_falsy (hash : String → String) (db : DB) (u p : String) :
    (db.users.find? (fun r => r.1 == u) = none → login_user hash db u p = none) ∧
      (∀ stored : String × String, db.users.find? (fun r => r.1 == u) = some stored →
        stored.2 ≠ hash p → login_user hash db u p = some false) ∧
      (db.users.find? (fun r => r.1 == u) = none →
        pyTruthy (login_user hash db u p) = false) ∧
      (∀ stored : String × String, db.users.find? (fun r => r.1 == u) = some stored →
        stored.2 ≠ hash p → pyTruthy (login_user hash db u p) = false) := by
  have h1 : db.users.find? (fun r => r.1 == u) = none → login_user hash db u p = none := by
    intro h
    simp [login_user, h]
  have h2 : ∀ stored : String × String, db.users.find? (fun r => r.1 == u) = some stored →
      stored.2 ≠ hash p → login_user hash db u p = some false := by
    intro stored hs hne
    simp [login_user, hs]
    exact hne
  refine ⟨h1, h2, fun h => ?_, fun stored hs hne => ?_⟩
  · rw [h1 h]
    rfl
  · rw [h2 stored hs hne]
    rfl

/-- Witness for C8 discharging the record-exists and digest-differs
hypotheses at the concrete store. -/
theorem authenticate_falsy_witness :
    (DB.users dbC).find? (fun r => r.1 == "alice") = some ("alice", "pw") ∧
      ("alice", "pw").2 ≠ (fun s : String => s) "zz" ∧
      login_user (fun s => s) dbC "alice" "zz" = some false ∧
      pyTruthy (login_user (fun s => s) dbC "alice" "zz") = false := by
  have hs : (DB.users dbC).find? (fun r => r.1 == "alice") = some ("alice", "pw") := by
    decide
  have hne : ("alice", "pw").2 ≠ (fun s : String => s) "zz" := by decide
  have hthm := authenticate_falsy (fun s => s) dbC "alice" "zz"
  exact ⟨hs, hne, hthm.2.1 ("alice", "pw") hs hne, hthm.2.2.2 ("alice", "pw") hs hne⟩
